import Mathlib

/-!
Shallow embedding of the profit-calculation and BAN-risk modules of the
ec-automation repository (`src/ai/profit_calculator.py`, `src/ai/ban_filter.py`),
together with theorems settling the frozen claims about them.

Python's decimal money arithmetic is embedded over `ℚ`; `round(x, n)` is
embedded as round-half-to-even at `n` decimal digits (`pyRound`), matching
Python's `round` builtin on exact values.
-/

namespace EcAutomation

/-- Python's `round` to an integer: round half to even (banker's rounding). -/
def roundHalfEven (x : ℚ) : ℤ :=
  let f := ⌊x⌋
  if x - f < 1/2 then f
  else if 1/2 < x - f then f + 1
  else if f % 2 = 0 then f else f + 1

/-- Python's `round(x, n)`: round to `n` decimal digits, half to even. -/
def pyRound (n : ℕ) (x : ℚ) : ℚ :=
  (roundHalfEven (x * 10 ^ n) : ℚ) / 10 ^ n

/- ---------------------------------------------------------------------
   src/ai/profit_calculator.py
   --------------------------------------------------------------------- -/

/-- `USD_JPY_RATE = 150.0` -/
def USD_JPY_RATE : ℚ := 150.0

/-- Return shape of `estimate_shipping`: `{"method", "cost_jpy", "cost_usd"}`. -/
structure Shipping where
  method : String
  cost_jpy : ℤ
  cost_usd : ℚ
  deriving Repr, DecidableEq

/-- `SHIPPING_TABLE`: `(上限重量g, 方法名, 費用JPY, 費用USD)` rows. -/
def SHIPPING_TABLE : List (ℤ × String × ℤ × ℚ) :=
  [(50, "ePacket Lite", 580, 3.87),
   (300, "EMS", 3600, 24.00),
   (2000, "EMS", 5000, 33.33)]

/-- The `for`-loop of `estimate_shipping`: first row whose max weight bounds
`weight_g` wins; falling off the table yields the excess-weight fallback. -/
def shippingScan (weight_g : ℤ) : List (ℤ × String × ℤ × ℚ) → Shipping
  | [] =>
      { method := "EMS (超過重量)", cost_jpy := 8000,
        cost_usd := pyRound 2 (8000 / USD_JPY_RATE) }
  | (max_weight, method, cost_jpy, cost_usd) :: rest =>
      if weight_g ≤ max_weight then
        { method := method, cost_jpy := cost_jpy, cost_usd := cost_usd }
      else shippingScan weight_g rest

/-- `estimate_shipping(weight_g)`. `none` embeds Python `None`. -/
def estimate_shipping : Option ℤ → Shipping
  | none =>
      { method := "ePacket Lite (推定)", cost_jpy := 580, cost_usd := 3.87 }
  | some w => shippingScan w SHIPPING_TABLE

/-- One entry of `PLATFORM_FEES`. -/
structure FeeModel where
  fvf_rate : ℚ
  payment_fee_fixed : ℚ
  payment_fee_rate : ℚ
  listing_fee : ℚ
  deriving Repr, DecidableEq

/-- `PLATFORM_FEES["ebay"]` (built from `EBAY_FVF_RATE = 0.1325`,
`EBAY_PAYMENT_FEE_USD = 0.30`). -/
def ebayFees : FeeModel :=
  { fvf_rate := 0.1325, payment_fee_fixed := 0.30,
    payment_fee_rate := 0.0, listing_fee := 0.0 }

/-- `PLATFORM_FEES["etsy"]` (built from `ETSY_TRANSACTION_FEE_RATE = 0.065`,
`ETSY_PAYMENT_FEE_FIXED_USD = 0.25`, `ETSY_PAYMENT_FEE_RATE = 0.03`,
`ETSY_LISTING_FEE_USD = 0.20`). -/
def etsyFees : FeeModel :=
  { fvf_rate := 0.065, payment_fee_fixed := 0.25,
    payment_fee_rate := 0.03, listing_fee := 0.20 }

/-- `PLATFORM_FEES.get(platform, PLATFORM_FEES["ebay"])`: the two-key dict
lookup with the eBay model as default for unrecognized identifiers. -/
def platformFeesFor (platform : String) : FeeModel :=
  if platform = "ebay" then ebayFees
  else if platform = "etsy" then etsyFees
  else ebayFees

/-- Return shape of `calculate_profit` (its dict has exactly these keys,
listed in `calculateProfitDictKeys`). -/
structure ProfitBreakdown where
  sale_usd : ℚ
  wholesale_usd : ℚ
  wholesale_jpy : ℤ
  shipping : Shipping
  shipping_usd : ℚ
  platform : String
  ebay_fvf_usd : ℚ
  ebay_payment_usd : ℚ
  platform_fees_usd : ℚ
  total_cost_usd : ℚ
  profit_usd : ℚ
  profit_margin : ℚ
  profitable : Bool
  deriving Repr, DecidableEq

/-- The literal key list of the dict returned by `calculate_profit`; the
source never puts an `"error"` key in this dict. -/
def calculateProfitDictKeys : List String :=
  ["sale_usd", "wholesale_usd", "wholesale_jpy", "shipping", "shipping_usd",
   "platform", "ebay_fvf_usd", "ebay_payment_usd", "platform_fees_usd",
   "total_cost_usd", "profit_usd", "profit_margin", "profitable"]

/-- `calculate_profit(wholesale_jpy, sale_usd, weight_g, shipping_override_usd,
platform)`. -/
def calculate_profit (wholesale_jpy : ℤ) (sale_usd : ℚ)
    (weight_g : Option ℤ := none) (shipping_override_usd : Option ℚ := none)
    (platform : String := "ebay") : ProfitBreakdown :=
  let fees := platformFeesFor platform
  let wholesale_usd := pyRound 2 (wholesale_jpy / USD_JPY_RATE)
  let shipping := estimate_shipping weight_g
  let shipping_usd :=
    match shipping_override_usd with
    | some o => o
    | none => shipping.cost_usd
  let fvf := pyRound 2 (sale_usd * fees.fvf_rate)
  let payment_fixed := fees.payment_fee_fixed
  let payment_variable := pyRound 2 (sale_usd * fees.payment_fee_rate)
  let listing_fee := fees.listing_fee
  let platform_fees := pyRound 2 (fvf + payment_fixed + payment_variable + listing_fee)
  let total_cost := pyRound 2 (wholesale_usd + shipping_usd + platform_fees)
  let profit := pyRound 2 (sale_usd - total_cost)
  let margin := if sale_usd > 0 then pyRound 4 (profit / sale_usd) else 0
  { sale_usd := sale_usd
    wholesale_usd := wholesale_usd
    wholesale_jpy := wholesale_jpy
    shipping := shipping
    shipping_usd := shipping_usd
    platform := platform
    ebay_fvf_usd := fvf
    ebay_payment_usd := payment_fixed
    platform_fees_usd := platform_fees
    total_cost_usd := total_cost
    profit_usd := profit
    profit_margin := margin
    profitable := margin ≥ 0.25 }

/-- Success shape of `suggest_price`. -/
structure SuggestSuccess where
  suggested_price_usd : ℚ
  target_margin : ℚ
  platform : String
  breakdown : ProfitBreakdown
  deriving Repr, DecidableEq

/-- `suggest_price(wholesale_jpy, weight_g, target_margin, platform)`.
The Python function is total: the infeasible-margin case returns the dict
`{"suggested_price_usd": None, "error": ...}` instead of raising, embedded
here as the `Except.error` branch. -/
def suggest_price (wholesale_jpy : ℤ) (weight_g : Option ℤ := none)
    (target_margin : ℚ := 0.30) (platform : String := "ebay") :
    Except String SuggestSuccess :=
  let fees := platformFeesFor platform
  let wholesale_usd := wholesale_jpy / USD_JPY_RATE
  let shipping := estimate_shipping weight_g
  let shipping_usd := shipping.cost_usd
  let total_rate := fees.fvf_rate + fees.payment_fee_rate
  let denominator := 1 - total_rate - target_margin
  if denominator ≤ 0 then
    Except.error "目標利益率が高すぎます（手数料率 + margin >= 100%）"
  else
    let fixed_costs := wholesale_usd + shipping_usd + fees.payment_fee_fixed + fees.listing_fee
    let suggested := pyRound 2 (fixed_costs / denominator)
    let breakdown := calculate_profit wholesale_jpy suggested weight_g none platform
    Except.ok
      { suggested_price_usd := suggested, target_margin := target_margin,
        platform := platform, breakdown := breakdown }

/- ---------------------------------------------------------------------
   String helpers: Python's `str.lower`, substring `in`, `sorted(set(...))`.
   Embedded at the character-list level (ASCII case folding, code-point
   lexicographic order — the fragment Python uses on this module's data).
   --------------------------------------------------------------------- -/

/-- Python `str.lower()` (ASCII fragment), as a character list. -/
def lowerChars (s : String) : List Char := s.data.map Char.toLower

/-- `needle` occurs at the start of `hay`. -/
def charsStart : List Char → List Char → Bool
  | [], _ => true
  | _ :: _, [] => false
  | a :: as, b :: bs => a == b && charsStart as bs

/-- Python's substring test `needle in hay` on character lists. -/
def charsSub (needle : List Char) : List Char → Bool
  | [] => needle.isEmpty
  | b :: bs => charsStart needle (b :: bs) || charsSub needle bs

/-- Code-point lexicographic `<` on character lists (Python string `<`). -/
def charsLt : List Char → List Char → Bool
  | [], [] => false
  | [], _ :: _ => true
  | _ :: _, [] => false
  | a :: as, b :: bs => if a < b then true else if b < a then false else charsLt as bs

/-- Insert a string into a sorted duplicate-free list, keeping it so. -/
def insertSorted (a : String) : List String → List String
  | [] => [a]
  | b :: bs =>
      if a = b then b :: bs
      else if charsLt a.data b.data then a :: b :: bs
      else b :: insertSorted a bs

/-- Python `sorted(set(xs))` for strings: sorted, duplicate-free. -/
def sortedSet (xs : List String) : List String := xs.foldr insertSorted []

/- ---------------------------------------------------------------------
   src/ai/ban_filter.py
   --------------------------------------------------------------------- -/

/-- `PROHIBITED_KEYWORDS`, in source order. The source groups them by
comment: drop-shipping terms, replica/counterfeit terms, exaggeration
terms (see `DROPSHIP_TERMS`, `REPLICA_TERMS`, `EXAGGERATION_TERMS`). -/
def PROHIBITED_KEYWORDS : List String :=
  ["dropship", "dropshipping", "drop ship", "wholesale", "bulk order",
   "replica", "counterfeit", "fake", "knockoff", "imitation", "bootleg",
   "guaranteed authentic", "100% genuine"]

/-- The `# ドロップシッピング関連` (drop-shipping) comment group of
`PROHIBITED_KEYWORDS`. -/
def DROPSHIP_TERMS : List String :=
  ["dropship", "dropshipping", "drop ship", "wholesale", "bulk order"]

/-- The `# レプリカ・偽物関連` (replica / counterfeit) comment group of
`PROHIBITED_KEYWORDS`. -/
def REPLICA_TERMS : List String :=
  ["replica", "counterfeit", "fake", "knockoff", "imitation", "bootleg"]

/-- The `# 誇大表現` (exaggerated-authenticity) comment group of
`PROHIBITED_KEYWORDS`. -/
def EXAGGERATION_TERMS : List String :=
  ["guaranteed authentic", "100% genuine"]

/-- The literal tuple in `check_prohibited_keywords` whose members get
severity `"high"`. -/
def HIGH_SEVERITY_KEYWORDS : List String :=
  ["replica", "counterfeit", "fake", "dropship", "dropshipping"]

/-- One element of the list returned by `check_prohibited_keywords`. -/
structure KeywordHit where
  keyword : String
  severity : String
  deriving Repr, DecidableEq

/-- `check_prohibited_keywords(text)`; `none` embeds Python `None`, and
`if not text` is true exactly for `None` and `""`. -/
def check_prohibited_keywords (text : Option String) : List KeywordHit :=
  match text with
  | none => []
  | some t =>
      if t = "" then []
      else
        let text_lower := lowerChars t
        (PROHIBITED_KEYWORDS.filter fun k => charsSub (lowerChars k) text_lower).map
          fun k =>
            { keyword := k,
              severity := if k ∈ HIGH_SEVERITY_KEYWORDS then "high" else "medium" }

/-- One element of `db.is_brand_blacklisted(text)`. -/
structure BrandMatch where
  brand_name : String
  risk_level : String
  deriving Repr, DecidableEq

/-- One element of `db.get_country_restrictions(category)`. -/
structure CountryRestriction where
  country_code : String
  reason : String
  deriving Repr, DecidableEq

/-- The two lookups of the `Database` dependency that `check_ban_risk`
uses (duck-typed `db` argument in the source). -/
structure Database where
  is_brand_blacklisted : String → List BrandMatch
  get_country_restrictions : String → List CountryRestriction

/-- The product dict fields `check_ban_risk` reads; `none` embeds an
absent key or `None` value. -/
structure Product where
  name_ja : Option String := none
  name_en : Option String := none
  description_ja : Option String := none
  description_en : Option String := none
  category : Option String := none
  wholesale_price_jpy : Option ℤ := none
  weight_g : Option ℤ := none

/-- One element of the `issues` list: `{"type", "detail", "severity"}`. -/
structure Issue where
  type : String
  detail : String
  severity : String
  deriving Repr, DecidableEq

/-- Return shape of `check_ban_risk`. -/
structure BanVerdict where
  safe : Bool
  issues : List Issue
  risk_level : String
  excluded_countries : List String
  deriving Repr, DecidableEq

/-- `texts_to_check`: the four optional text fields, in source order, kept
when truthy (present and non-empty). -/
def textsToCheck (product : Product) : List String :=
  ([product.name_ja, product.name_en,
    product.description_ja, product.description_en].filterMap id).filter
    fun s => s ≠ ""

/-- `combined_text = " ".join(texts_to_check)`. -/
def combinedText (product : Product) : String :=
  String.intercalate " " (textsToCheck product)

/-- The country restrictions consulted by check #2: looked up only when
`product.get("category")` is truthy (present and non-empty). -/
def categoryRestrictions (product : Product) (db : Database) :
    List CountryRestriction :=
  match product.category with
  | none => []
  | some c => if c = "" then [] else db.get_country_restrictions c

/-- Check 1 (`--- 1. ブランドブラックリスト ---`): one issue per brand match,
with the entry's risk level as severity. -/
def brandIssues (db : Database) (combined_text : String) : List Issue :=
  (db.is_brand_blacklisted combined_text).map fun m =>
    { type := "brand_blacklist",
      detail := "VeROブランド検出: " ++ m.brand_name ++ " (リスク: " ++ m.risk_level ++ ")",
      severity := m.risk_level }

/-- Check 2 (`--- 2. 国別配送制限 ---`): one severity-"high" issue per
country restriction of the product's category. -/
def countryIssues (restrictions : List CountryRestriction) : List Issue :=
  restrictions.map fun r =>
    { type := "country_restriction",
      detail := r.country_code ++ "への配送禁止: " ++ r.reason,
      severity := "high" }

/-- Check 3 (`--- 3. 禁止キーワード ---`): one issue per keyword hit,
keeping the hit's severity. -/
def keywordIssues (combined_text : String) : List Issue :=
  (check_prohibited_keywords (some combined_text)).map fun hit =>
    { type := "prohibited_keyword",
      detail := "禁止語検出: \x27" ++ hit.keyword ++ "\x27",
      severity := hit.severity }

/-- Check 4 (`--- 4. 利益率チェック（sale_price指定時のみ） ---`): a single
severity-"medium" issue when a sale price and a truthy wholesale cost are
given and the breakdown is not profitable. The numeric-to-string rendering
of Python's `format` is abstracted by `toString`. -/
def profitIssues (product : Product) (sale_price_usd : Option ℚ) : List Issue :=
  match sale_price_usd, product.wholesale_price_jpy with
  | some sp, some wj =>
      if wj = 0 then []
      else
        let profit_result := calculate_profit wj sp product.weight_g none "ebay"
        if profit_result.profitable then []
        else
          let margin_pct := pyRound 1 (profit_result.profit_margin * 100)
          [{ type := "low_margin",
             detail := "利益率 " ++ toString margin_pct ++ "% (基準: 25%以上)",
             severity := "medium" }]
  | _, _ => []

/-- The full `issues` list of `check_ban_risk`, in source order. -/
def banIssues (product : Product) (db : Database) (sale_price_usd : Option ℚ) :
    List Issue :=
  brandIssues db (combinedText product)
    ++ countryIssues (categoryRestrictions product db)
    ++ keywordIssues (combinedText product)
    ++ profitIssues product sale_price_usd

/-- The `--- リスクレベル判定 ---` cascade of `check_ban_risk`. -/
def riskLevelOf (issues : List Issue) : String :=
  if issues = [] then "none"
  else if issues.any fun i => i.severity == "high" then "high"
  else if issues.any fun i => i.severity == "medium" then "medium"
  else "low"

/-- `check_ban_risk(product, db, sale_price_usd)`. -/
def check_ban_risk (product : Product) (db : Database)
    (sale_price_usd : Option ℚ := none) : BanVerdict :=
  let issues := banIssues product db sale_price_usd
  let excluded_countries := (categoryRestrictions product db).map fun r => r.country_code
  let risk_level := riskLevelOf issues
  let safe := risk_level == "none" || risk_level == "low"
  { safe := safe, issues := issues, risk_level := risk_level,
    excluded_countries := sortedSet excluded_countries }

/- ---------------------------------------------------------------------
   Concrete reference data used to instantiate theorems with hypotheses.
   --------------------------------------------------------------------- -/

/-- A reference-data provider whose brand deny-list always matches one
high-risk brand and that restricts no countries. -/
def dbHighBrand : Database :=
  { is_brand_blacklisted := fun _ => [{ brand_name := "Shun", risk_level := "high" }],
    get_country_restrictions := fun _ => [] }

/-- A reference-data provider with no brand matches that restricts the
"knife" category to exclude GB and IE. -/
def dbKnife : Database :=
  { is_brand_blacklisted := fun _ => [],
    get_country_restrictions := fun c =>
      if c = "knife" then
        [{ country_code := "IE", reason := "Irish knife law" },
         { country_code := "GB", reason := "UK knife law" }]
      else [] }

/-- A product in the "knife" category. -/
def knifeProduct : Product :=
  { name_ja := some "kitchen knife", category := some "knife" }

/- =====================================================================
   Theorems
   ===================================================================== -/

/-! ### Rounding error bounds -/

theorem roundHalfEven_bound (x : ℚ) : |(roundHalfEven x : ℚ) - x| ≤ 1/2 := by
  have hle : (⌊x⌋ : ℚ) ≤ x := Int.floor_le x
  have hlt : x < ⌊x⌋ + 1 := Int.lt_floor_add_one x
  simp only [roundHalfEven]
  split_ifs with h1 h2 h3 <;> rw [abs_le] <;> push_cast <;> constructor <;> linarith

theorem pyRound_bound (n : ℕ) (x : ℚ) :
    |pyRound n x - x| ≤ 1 / (2 * 10 ^ n) := by
  have hpow : (0:ℚ) < 10 ^ n := by positivity
  have h := roundHalfEven_bound (x * 10 ^ n)
  have hx : pyRound n x - x = ((roundHalfEven (x * 10 ^ n) : ℚ) - x * 10 ^ n) / 10 ^ n := by
    field_simp [pyRound]
    ring
  rw [hx, abs_div, abs_of_pos hpow, div_le_div_iff₀ hpow (by positivity)]
  calc |(roundHalfEven (x * 10 ^ n) : ℚ) - x * 10 ^ n| * (2 * 10 ^ n)
      ≤ (1/2) * (2 * 10 ^ n) := by
        apply mul_le_mul_of_nonneg_right h (by positivity)
    _ = 1 * 10 ^ n := by ring

theorem pyRound_le (n : ℕ) (x : ℚ) : pyRound n x ≤ x + 1 / (2 * 10 ^ n) := by
  have := (abs_le.1 (pyRound_bound n x)).2
  linarith

theorem le_pyRound (n : ℕ) (x : ℚ) : x - 1 / (2 * 10 ^ n) ≤ pyRound n x := by
  have := (abs_le.1 (pyRound_bound n x)).1
  linarith

/-- Half-cent bound for rounding to cents. -/
theorem pyRound2_bound (x : ℚ) : |pyRound 2 x - x| ≤ 1/200 := by
  have h := pyRound_bound 2 x
  have e : (1:ℚ) / (2 * 10 ^ 2) = 1/200 := by norm_num
  rw [e] at h
  exact h

/-- Half-ulp bound for rounding to four decimal digits. -/
theorem pyRound4_bound (x : ℚ) : |pyRound 4 x - x| ≤ 1/20000 := by
  have h := pyRound_bound 4 x
  have e : (1:ℚ) / (2 * 10 ^ 4) = 1/20000 := by norm_num
  rw [e] at h
  exact h

/-- The excess-weight fallback cost in USD: round(8000/150, 2) = 53.33. -/
theorem pyRound_excess : pyRound 2 (8000 / USD_JPY_RATE) = 53.33 := by
  have h150 : USD_JPY_RATE = 150 := by norm_num [USD_JPY_RATE]
  rw [h150]
  have hfl : ⌊(8000 / 150 * 10 ^ 2 : ℚ)⌋ = 5333 := by
    rw [Int.floor_eq_iff]
    norm_num
  norm_num [pyRound, roundHalfEven, hfl]

/-- Every shipping tier (including the unknown-weight estimate and the
excess-weight fallback) costs at least 3.87 USD. -/
theorem shipping_cost_lb (w : Option ℤ) : (387/100 : ℚ) ≤ (estimate_shipping w).cost_usd := by
  rcases w with _ | v
  · norm_num [estimate_shipping]
  · by_cases h1 : v ≤ 50
    · norm_num [estimate_shipping, SHIPPING_TABLE, shippingScan, h1]
    · by_cases h2 : v ≤ 300
      · norm_num [estimate_shipping, SHIPPING_TABLE, shippingScan, h1, h2]
      · by_cases h3 : v ≤ 2000
        · norm_num [estimate_shipping, SHIPPING_TABLE, shippingScan, h1, h2, h3]
        · norm_num [estimate_shipping, SHIPPING_TABLE, shippingScan, h1, h2, h3,
            pyRound_excess]

/-- `PLATFORM_FEES.get` only ever produces the two configured fee models. -/
theorem platformFeesFor_cases (platform : String) :
    platformFeesFor platform = ebayFees ∨ platformFeesFor platform = etsyFees := by
  unfold platformFeesFor
  split_ifs <;> simp

set_option maxHeartbeats 1000000 in
/-- Numeric core of the `suggest_price` self-check: if `S0` solves the
exact pricing equation, `S` is `S0` rounded to cents, and each verification
quantity is within half an ulp of its exact value, then the suggested price
is at least 4.165 USD and the pre-rounding verification margin undershoots
the target by less than 0.01 - 1/20000. -/
theorem suggest_core_bound
    (S0 S wu0 wu ship fr pr F m fvf pv pf tc p : ℚ)
    (hfr0 : 0 ≤ fr) (hpr0 : 0 ≤ pr) (hfp1 : fr + pr ≤ 1)
    (hm0 : 0 ≤ m) (hD : 0 < 1 - (fr + pr) - m)
    (hship : 387/100 ≤ ship) (hF : 30/100 ≤ F) (hwu00 : 0 ≤ wu0)
    (hS0pos : 0 < S0)
    (hS0 : S0 * (1 - (fr + pr) - m) = wu0 + ship + F)
    (hS : |S - S0| ≤ 1/200)
    (hwu : |wu - wu0| ≤ 1/200)
    (hfvf : |fvf - S * fr| ≤ 1/200)
    (hpv : |pv - S * pr| ≤ 1/200)
    (hpf : |pf - (fvf + pv + F)| ≤ 1/200)
    (htc : |tc - (wu + ship + pf)| ≤ 1/200)
    (hp : |p - (S - tc)| ≤ 1/200) :
    (4165/1000 : ℚ) ≤ S ∧ m - 1/100 + 1/20000 ≤ p / S := by
  obtain ⟨hS1, hS2⟩ := abs_le.1 hS
  obtain ⟨hwu1, hwu2⟩ := abs_le.1 hwu
  obtain ⟨hfvf1, hfvf2⟩ := abs_le.1 hfvf
  obtain ⟨hpv1, hpv2⟩ := abs_le.1 hpv
  obtain ⟨hpf1, hpf2⟩ := abs_le.1 hpf
  obtain ⟨htc1, htc2⟩ := abs_le.1 htc
  obtain ⟨hp1, hp2⟩ := abs_le.1 hp
  have hm1 : m ≤ 1 := by linarith
  have hS0lb : wu0 + ship + F ≤ S0 := by
    nlinarith [mul_nonneg hS0pos.le (by linarith : (0:ℚ) ≤ fr + pr + m)]
  have hSlb : (4165/1000 : ℚ) ≤ S := by linarith
  have hSpos : (0:ℚ) < S := by linarith
  have hprod1 : (-(1/200)) * (1 - fr - pr) ≤ (S - S0) * (1 - fr - pr) :=
    mul_le_mul_of_nonneg_right (by linarith) (by linarith)
  have hprod2 : (S - S0) * m ≤ (1/200) * m :=
    mul_le_mul_of_nonneg_right hS2 hm0
  have hplb : S * m - 1/25 ≤ p := by linarith [hprod1, hprod2]
  refine ⟨hSlb, ?_⟩
  rw [le_div_iff₀ hSpos]
  nlinarith [hplb, hSlb, hSpos, hm0, hm1]

/-! ### C1 — risk-level aggregation and the safe flag -/

/-- C1: the risk level returned by `check_ban_risk` is the exact cascade —
no issues gives "none", else any "high" severity gives "high", else any
"medium" gives "medium", else "low" — and `safe` is true exactly when the
risk level is "none" or "low". -/
theorem check_ban_risk_riskLevel_safe (product : Product) (db : Database)
    (sale_price_usd : Option ℚ) :
    ((check_ban_risk product db sale_price_usd).risk_level =
      if (check_ban_risk product db sale_price_usd).issues = [] then "none"
      else if (check_ban_risk product db sale_price_usd).issues.any
          (fun i => i.severity == "high") then "high"
      else if (check_ban_risk product db sale_price_usd).issues.any
          (fun i => i.severity == "medium") then "medium"
      else "low")
    ∧ (check_ban_risk product db sale_price_usd).safe =
        (((check_ban_risk product db sale_price_usd).risk_level == "none") ||
         ((check_ban_risk product db sale_price_usd).risk_level == "low")) :=
  ⟨rfl, rfl⟩

/-! ### C2 — calculate_profit breakdown equations -/

/-- C2: every field of the `calculate_profit` breakdown satisfies the
stated rounding equations (wholesale conversion at 150 JPY/USD, fee
components, total cost, profit, margin with the sale > 0 guard, and the
25% profitability threshold), with the eBay fee model used for
unrecognized marketplace identifiers. -/
theorem calculate_profit_equations (wholesale_jpy : ℤ) (sale_usd : ℚ)
    (weight_g : Option ℤ) (shipping_override_usd : Option ℚ) (platform : String) :
    (calculate_profit wholesale_jpy sale_usd weight_g shipping_override_usd
        platform).wholesale_usd = pyRound 2 (wholesale_jpy / USD_JPY_RATE)
    ∧ USD_JPY_RATE = 150
    ∧ (calculate_profit wholesale_jpy sale_usd weight_g shipping_override_usd
        platform).ebay_fvf_usd =
          pyRound 2 (sale_usd * (platformFeesFor platform).fvf_rate)
    ∧ (calculate_profit wholesale_jpy sale_usd weight_g shipping_override_usd
        platform).platform_fees_usd =
          pyRound 2 (pyRound 2 (sale_usd * (platformFeesFor platform).fvf_rate)
            + (platformFeesFor platform).payment_fee_fixed
            + pyRound 2 (sale_usd * (platformFeesFor platform).payment_fee_rate)
            + (platformFeesFor platform).listing_fee)
    ∧ (calculate_profit wholesale_jpy sale_usd weight_g shipping_override_usd
        platform).total_cost_usd =
          pyRound 2 ((calculate_profit wholesale_jpy sale_usd weight_g
              shipping_override_usd platform).wholesale_usd
            + (calculate_profit wholesale_jpy sale_usd weight_g
              shipping_override_usd platform).shipping_usd
            + (calculate_profit wholesale_jpy sale_usd weight_g
              shipping_override_usd platform).platform_fees_usd)
    ∧ (calculate_profit wholesale_jpy sale_usd weight_g shipping_override_usd
        platform).profit_usd =
          pyRound 2 (sale_usd - (calculate_profit wholesale_jpy sale_usd weight_g
            shipping_override_usd platform).total_cost_usd)
    ∧ (calculate_profit wholesale_jpy sale_usd weight_g shipping_override_usd
        platform).profit_margin =
          (if sale_usd > 0 then
            pyRound 4 ((calculate_profit wholesale_jpy sale_usd weight_g
              shipping_override_usd platform).profit_usd / sale_usd)
          else 0)
    ∧ (calculate_profit wholesale_jpy sale_usd weight_g shipping_override_usd
        platform).profitable =
          decide ((calculate_profit wholesale_jpy sale_usd weight_g
            shipping_override_usd platform).profit_margin ≥ 0.25)
    ∧ (platform = "ebay" ∨ platform = "etsy" ∨ platformFeesFor platform = ebayFees) := by
  refine ⟨rfl, by norm_num [USD_JPY_RATE], rfl, rfl, rfl, rfl, rfl, rfl, ?_⟩
  by_cases h1 : platform = "ebay"
  · exact Or.inl h1
  · by_cases h2 : platform = "etsy"
    · exact Or.inr (Or.inl h2)
    · exact Or.inr (Or.inr (by simp [platformFeesFor, h1, h2]))

/-! ### C3 — shipping tiers -/

/-- C3: `estimate_shipping` returns the ePacket Lite costs (580 JPY /
3.87 USD) for null weight and for w ≤ 50, EMS 3600 JPY / 24.00 USD for
50 < w ≤ 300, EMS 5000 JPY / 33.33 USD for 300 < w ≤ 2000, and the
distinctly-labeled 8000 JPY excess-weight fallback converted at
150 JPY/USD for w > 2000. -/
theorem estimate_shipping_tiers (w : ℤ) :
    (estimate_shipping none).cost_jpy = 580
    ∧ (estimate_shipping none).cost_usd = 3.87
    ∧ (w ≤ 50 → estimate_shipping (some w) =
        { method := "ePacket Lite", cost_jpy := 580, cost_usd := 3.87 })
    ∧ (50 < w → w ≤ 300 → estimate_shipping (some w) =
        { method := "EMS", cost_jpy := 3600, cost_usd := 24.00 })
    ∧ (300 < w → w ≤ 2000 → estimate_shipping (some w) =
        { method := "EMS", cost_jpy := 5000, cost_usd := 33.33 })
    ∧ (2000 < w → estimate_shipping (some w) =
        { method := "EMS (超過重量)", cost_jpy := 8000,
          cost_usd := pyRound 2 (8000 / USD_JPY_RATE) })
    ∧ pyRound 2 (8000 / USD_JPY_RATE) = 53.33 := by
  refine ⟨rfl, rfl, ?_, ?_, ?_, ?_, ?_⟩
  · intro h1
    simp [estimate_shipping, SHIPPING_TABLE, shippingScan, h1]
  · intro h1 h2
    simp [estimate_shipping, SHIPPING_TABLE, shippingScan, h2, not_le.2 h1]
  · intro h1 h2
    simp [estimate_shipping, SHIPPING_TABLE, shippingScan, h2,
      not_le.2 h1, not_le.2 (by linarith : (50:ℤ) < w)]
  · intro h1
    simp [estimate_shipping, SHIPPING_TABLE, shippingScan,
      not_le.2 h1, not_le.2 (by linarith : (300:ℤ) < w),
      not_le.2 (by linarith : (50:ℤ) < w)]
  · exact pyRound_excess

/-- Witness for C3 at concrete weights in each tier. -/
theorem estimate_shipping_tiers_witness :
    estimate_shipping (some 30) =
      { method := "ePacket Lite", cost_jpy := 580, cost_usd := 3.87 }
    ∧ estimate_shipping (some 60) =
      { method := "EMS", cost_jpy := 3600, cost_usd := 24.00 }
    ∧ estimate_shipping (some 500) =
      { method := "EMS", cost_jpy := 5000, cost_usd := 33.33 }
    ∧ estimate_shipping (some 2500) =
      { method := "EMS (超過重量)", cost_jpy := 8000,
        cost_usd := pyRound 2 (8000 / USD_JPY_RATE) } :=
  ⟨(estimate_shipping_tiers 30).2.2.1 (by decide),
   (estimate_shipping_tiers 60).2.2.2.1 (by decide) (by decide),
   (estimate_shipping_tiers 500).2.2.2.2.1 (by decide) (by decide),
   (estimate_shipping_tiers 2500).2.2.2.2.2.1 (by decide)⟩

/-! ### C10 — shipping override leaves the nested shipping dict untouched -/

/-- C10: with a shipping override, `calculate_profit` uses the override as
`shipping_usd` and inside `total_cost_usd` and `profit_usd`, while the
nested `shipping` dict still holds the weight-based estimate, so the two
can disagree (witnessed at override 10 vs estimate 3.87). -/
theorem calculate_profit_shipping_override (wholesale_jpy : ℤ) (sale_usd : ℚ)
    (weight_g : Option ℤ) (ov : ℚ) (platform : String) :
    (calculate_profit wholesale_jpy sale_usd weight_g (some ov) platform).shipping_usd = ov
    ∧ (calculate_profit wholesale_jpy sale_usd weight_g (some ov) platform).shipping =
        estimate_shipping weight_g
    ∧ (calculate_profit wholesale_jpy sale_usd weight_g (some ov) platform).total_cost_usd =
        pyRound 2
          ((calculate_profit wholesale_jpy sale_usd weight_g (some ov) platform).wholesale_usd
            + ov
            + (calculate_profit wholesale_jpy sale_usd weight_g (some ov)
                platform).platform_fees_usd)
    ∧ (calculate_profit wholesale_jpy sale_usd weight_g (some ov) platform).profit_usd =
        pyRound 2 (sale_usd - (calculate_profit wholesale_jpy sale_usd weight_g (some ov)
          platform).total_cost_usd)
    ∧ (calculate_profit 300 15 (some 50) (some 10) "ebay").shipping.cost_usd = 3.87
    ∧ (calculate_profit 300 15 (some 50) (some 10) "ebay").shipping_usd = 10
    ∧ (3.87 : ℚ) ≠ 10 :=
  ⟨rfl, rfl, rfl, rfl, rfl, rfl, by norm_num⟩

/-! ### C4 — infeasible target margin yields an error result -/

/-- C4: whenever `1 - (fvfRate + paymentFeeRate) - targetMargin ≤ 0`,
`suggest_price` returns the explicit error result (no suggested price, an
error string, no exception — the embedding is a total function); in
particular a 0.90 target margin on the default eBay fee model always
errors, for any positive wholesale cost. -/
theorem suggest_price_infeasible_margin (wholesale_jpy : ℤ) (weight_g : Option ℤ)
    (target_margin : ℚ) (platform : String) :
    (1 - ((platformFeesFor platform).fvf_rate + (platformFeesFor platform).payment_fee_rate)
        - target_margin ≤ 0 →
      suggest_price wholesale_jpy weight_g target_margin platform =
        Except.error "目標利益率が高すぎます（手数料率 + margin >= 100%）")
    ∧ (0 < wholesale_jpy →
      suggest_price wholesale_jpy weight_g 0.90 "ebay" =
        Except.error "目標利益率が高すぎます（手数料率 + margin >= 100%）") := by
  constructor
  · intro h
    simp only [suggest_price]
    rw [if_pos h]
  · intro _
    simp only [suggest_price]
    rw [if_pos (by norm_num [platformFeesFor, ebayFees])]

/-! ### C5 — keyword severity partition -/

/-- Every hit of `check_prohibited_keywords` is a deny-listed keyword whose
severity is "high" exactly for the five-element tuple hard-coded in the
source, "medium" otherwise. -/
theorem keyword_hit_spec (text : Option String) :
    ∀ hit ∈ check_prohibited_keywords text,
      hit.keyword ∈ PROHIBITED_KEYWORDS ∧
      hit.severity = (if hit.keyword ∈ HIGH_SEVERITY_KEYWORDS then "high" else "medium") := by
  intro hit hmem
  rcases text with _ | t
  · simp [check_prohibited_keywords] at hmem
  · by_cases ht : t = ""
    · simp [check_prohibited_keywords, ht] at hmem
    · simp only [check_prohibited_keywords, if_neg ht, List.mem_map] at hmem
      obtain ⟨k, hk, rfl⟩ := hmem
      exact ⟨List.mem_of_mem_filter hk, rfl⟩

/-- C5 counterexample: "knockoff" belongs to the counterfeit/replica group
of the deny-list and "drop ship" to the drop-shipping group, yet both of
their hits carry severity "medium", refuting "every hit for a
counterfeit/replica term or a drop-shipping term has severity high". -/
theorem keyword_severity_counterexample :
    "knockoff" ∈ REPLICA_TERMS
    ∧ check_prohibited_keywords (some "knockoff") =
        [{ keyword := "knockoff", severity := "medium" }]
    ∧ "drop ship" ∈ DROPSHIP_TERMS
    ∧ check_prohibited_keywords (some "drop ship") =
        [{ keyword := "drop ship", severity := "medium" }] := by
  refine ⟨by decide, by decide, by decide, by decide⟩

/-- C5 amended: hits for the five hard-coded terms replica, counterfeit,
fake, dropship, dropshipping have severity "high"; hits for every other
deny-listed term (knockoff, imitation, bootleg, drop ship, wholesale,
bulk order, guaranteed authentic, 100% genuine) have severity "medium";
empty or null text yields an empty list without failing. -/
theorem keyword_severity_partition (text : Option String) :
    (∀ hit ∈ check_prohibited_keywords text,
      hit.keyword ∈ PROHIBITED_KEYWORDS ∧
      hit.severity = (if hit.keyword ∈ HIGH_SEVERITY_KEYWORDS then "high" else "medium"))
    ∧ HIGH_SEVERITY_KEYWORDS =
        ["replica", "counterfeit", "fake", "dropship", "dropshipping"]
    ∧ PROHIBITED_KEYWORDS = DROPSHIP_TERMS ++ REPLICA_TERMS ++ EXAGGERATION_TERMS
    ∧ check_prohibited_keywords none = []
    ∧ check_prohibited_keywords (some "") = [] :=
  ⟨keyword_hit_spec text, by decide, by decide, rfl, by decide⟩

/-- Witness for C5 (amended) on a text containing "replica". -/
theorem keyword_severity_partition_witness :
    ({ keyword := "replica", severity := "high" } : KeywordHit).keyword ∈ PROHIBITED_KEYWORDS
    ∧ ({ keyword := "replica", severity := "high" } : KeywordHit).severity =
        (if ({ keyword := "replica", severity := "high" } : KeywordHit).keyword
            ∈ HIGH_SEVERITY_KEYWORDS then "high" else "medium") :=
  (keyword_severity_partition (some "High quality replica item")).1
    { keyword := "replica", severity := "high" } (by decide)

/-! ### C8 — excluded countries -/

/-- C8: `excluded_countries` is the sorted de-duplicated list of exactly
the country codes of the category's restrictions (empty when the product
has no category), each restriction also contributes a severity-"high"
`country_restriction` issue, and the list does not depend on the sale
price (nor on any check other than the category lookup). -/
theorem check_ban_risk_excluded_countries (product : Product) (db : Database)
    (sale_price_usd : Option ℚ) :
    (check_ban_risk product db sale_price_usd).excluded_countries =
      sortedSet ((categoryRestrictions product db).map fun r => r.country_code)
    ∧ (product.category = none → categoryRestrictions product db = [])
    ∧ (∀ r ∈ categoryRestrictions product db,
        ({ type := "country_restriction",
           detail := r.country_code ++ "への配送禁止: " ++ r.reason,
           severity := "high" } : Issue) ∈ (check_ban_risk product db sale_price_usd).issues)
    ∧ (check_ban_risk product db sale_price_usd).excluded_countries =
        (check_ban_risk product db none).excluded_countries := by
  refine ⟨rfl, fun h => by simp [categoryRestrictions, h], fun r hr => ?_, rfl⟩
  have hmem : Issue.mk "country_restriction"
      (r.country_code ++ "への配送禁止: " ++ r.reason) "high"
      ∈ countryIssues (categoryRestrictions product db) :=
    List.mem_map_of_mem _ hr
  show _ ∈ banIssues product db sale_price_usd
  unfold banIssues
  exact List.mem_append_left _ (List.mem_append_left _ (List.mem_append_right _ hmem))

/-- Witness for C8 on the knife category (restrictions IE and GB, stored
unsorted with the issue list non-empty). -/
theorem check_ban_risk_excluded_countries_witness :
    (check_ban_risk knifeProduct dbKnife none).excluded_countries = ["GB", "IE"]
    ∧ ({ type := "country_restriction",
         detail := "GB" ++ "への配送禁止: " ++ "UK knife law",
         severity := "high" } : Issue) ∈ (check_ban_risk knifeProduct dbKnife none).issues := by
  constructor
  · rw [(check_ban_risk_excluded_countries knifeProduct dbKnife none).1]
    decide
  · exact (check_ban_risk_excluded_countries knifeProduct dbKnife none).2.2.1
      { country_code := "GB", reason := "UK knife law" } (by decide)

/-! ### C9 — severities are never below "medium", so "low" is unreachable -/

/-- Margin-check issues always carry severity "medium". -/
theorem mem_profitIssues_severity (product : Product) (sale_price_usd : Option ℚ) :
    ∀ i ∈ profitIssues product sale_price_usd, i.severity = "medium" := by
  intro i hi
  rcases sale_price_usd with _ | sp
  · simp [profitIssues] at hi
  · rcases hwj : product.wholesale_price_jpy with _ | wj
    · simp [profitIssues, hwj] at hi
    · simp only [profitIssues, hwj] at hi
      split_ifs at hi <;> simp_all

/-- The aggregation cascade never yields "low" when every issue severity is
"high" or "medium", and then the safe flag is equivalent to emptiness. -/
theorem riskLevelOf_spec (l : List Issue)
    (h : ∀ i ∈ l, i.severity = "high" ∨ i.severity = "medium") :
    riskLevelOf l ≠ "low"
    ∧ (((riskLevelOf l == "none") || (riskLevelOf l == "low")) = true ↔ l = []) := by
  unfold riskLevelOf
  by_cases hnil : l = []
  · simp [hnil]
  · rw [if_neg hnil]
    by_cases hhigh : l.any fun i => i.severity == "high"
    · rw [if_pos hhigh]
      exact ⟨by decide, by simp [hnil]⟩
    · rw [if_neg hhigh]
      have hmed : (l.any fun i => i.severity == "medium") = true := by
        rcases l with _ | ⟨a, as⟩
        · exact absurd rfl hnil
        rcases h a (List.mem_cons_self a as) with ha | ha
        · exact absurd (List.any_eq_true.2 ⟨a, List.mem_cons_self a as, by simp [ha]⟩) hhigh
        · exact List.any_eq_true.2 ⟨a, List.mem_cons_self a as, by simp [ha]⟩
      rw [if_pos hmed]
      exact ⟨by decide, by simp [hnil]⟩

/-- C9: when every denied-brand entry carries risk level "high" or
"medium", every issue produced by `check_ban_risk` has severity "high" or
"medium"; hence the risk level is never "low" and the verdict is safe
exactly when the issues list is empty. -/
theorem check_ban_risk_no_low_risk (product : Product) (db : Database)
    (sale_price_usd : Option ℚ)
    (hb : ∀ m ∈ db.is_brand_blacklisted (combinedText product),
        m.risk_level = "high" ∨ m.risk_level = "medium") :
    (∀ i ∈ (check_ban_risk product db sale_price_usd).issues,
        i.severity = "high" ∨ i.severity = "medium")
    ∧ (check_ban_risk product db sale_price_usd).risk_level ≠ "low"
    ∧ ((check_ban_risk product db sale_price_usd).safe = true ↔
        (check_ban_risk product db sale_price_usd).issues = []) := by
  have hall : ∀ i ∈ banIssues product db sale_price_usd,
      i.severity = "high" ∨ i.severity = "medium" := by
    intro i hi
    unfold banIssues at hi
    rcases List.mem_append.1 hi with h1 | hp
    · rcases List.mem_append.1 h1 with h2 | hk
      · rcases List.mem_append.1 h2 with hbr | hc
        · simp only [brandIssues, List.mem_map] at hbr
          obtain ⟨m, hm, rfl⟩ := hbr
          exact hb m hm
        · simp only [countryIssues, List.mem_map] at hc
          obtain ⟨r, _, rfl⟩ := hc
          exact Or.inl rfl
      · simp only [keywordIssues, List.mem_map] at hk
        obtain ⟨hit, hh, rfl⟩ := hk
        have hs := (keyword_hit_spec (some (combinedText product)) hit hh).2
        by_cases hmemk : hit.keyword ∈ HIGH_SEVERITY_KEYWORDS
        · exact Or.inl (by rw [hs, if_pos hmemk])
        · exact Or.inr (by rw [hs, if_neg hmemk])
    · exact Or.inr (mem_profitIssues_severity product sale_price_usd i hp)
  have hr := riskLevelOf_spec _ hall
  exact ⟨hall, hr.1, hr.2⟩

/-- Witness for C9 on a product matched by one high-risk brand entry. -/
theorem check_ban_risk_no_low_risk_witness :
    (check_ban_risk { name_ja := some "Shun kitchen knife" } dbHighBrand none).risk_level
      ≠ "low"
    ∧ ((check_ban_risk { name_ja := some "Shun kitchen knife" } dbHighBrand none).safe = true
        ↔ (check_ban_risk { name_ja := some "Shun kitchen knife" } dbHighBrand none).issues
            = []) :=
  (check_ban_risk_no_low_risk { name_ja := some "Shun kitchen knife" } dbHighBrand none
    (by decide)).2

/-! ### C7 — nonpositive sale price -/

/-- C7 amended: for sale price ≤ 0, `calculate_profit` does not raise and
does not return an error field; it returns the ordinary breakdown (whose
key list lacks "error") with profit_margin 0.0 and profitable false. -/
theorem calculate_profit_nonpositive_sale (wholesale_jpy : ℤ) (sale_usd : ℚ)
    (weight_g : Option ℤ) (shipping_override_usd : Option ℚ) (platform : String)
    (hs : sale_usd ≤ 0) :
    (calculate_profit wholesale_jpy sale_usd weight_g shipping_override_usd
        platform).profit_margin = 0
    ∧ (calculate_profit wholesale_jpy sale_usd weight_g shipping_override_usd
        platform).profitable = false
    ∧ "error" ∉ calculateProfitDictKeys := by
  have hmargin : (calculate_profit wholesale_jpy sale_usd weight_g shipping_override_usd
      platform).profit_margin = 0 := by
    show (if sale_usd > 0 then _ else 0) = 0
    rw [if_neg (not_lt.2 hs)]
  refine ⟨hmargin, ?_, by decide⟩
  have hp : (calculate_profit wholesale_jpy sale_usd weight_g shipping_override_usd
      platform).profitable =
      decide ((calculate_profit wholesale_jpy sale_usd weight_g shipping_override_usd
        platform).profit_margin ≥ 0.25) := rfl
  rw [hp, hmargin]
  exact decide_eq_false (by norm_num)

/-! ### C6 — suggest_price self-check invariant -/

set_option maxHeartbeats 1000000 in
/-- C6: whenever the pricing denominator is positive (with nonnegative
wholesale cost and target margin), `suggest_price` succeeds, re-runs
`calculate_profit` at the suggested price, includes that breakdown in the
result, and the verification margin is at least the target margin minus a
0.01 rounding tolerance. -/
theorem suggest_price_selfcheck (wholesale_jpy : ℤ) (weight_g : Option ℤ)
    (target_margin : ℚ) (platform : String)
    (hw : 0 ≤ wholesale_jpy) (hm : 0 ≤ target_margin)
    (hD : 0 < 1 - ((platformFeesFor platform).fvf_rate
        + (platformFeesFor platform).payment_fee_rate) - target_margin) :
    ∃ s : SuggestSuccess,
      suggest_price wholesale_jpy weight_g target_margin platform = Except.ok s
      ∧ s.breakdown =
          calculate_profit wholesale_jpy s.suggested_price_usd weight_g none platform
      ∧ target_margin - 0.01 ≤ s.breakdown.profit_margin := by
  obtain ⟨hfr0, hpr0, hfp1, hFlb⟩ :
      0 ≤ (platformFeesFor platform).fvf_rate
      ∧ 0 ≤ (platformFeesFor platform).payment_fee_rate
      ∧ (platformFeesFor platform).fvf_rate
          + (platformFeesFor platform).payment_fee_rate ≤ 1
      ∧ 30/100 ≤ (platformFeesFor platform).payment_fee_fixed
          + (platformFeesFor platform).listing_fee := by
    rcases platformFeesFor_cases platform with h | h <;> rw [h] <;>
      refine ⟨?_, ?_, ?_, ?_⟩ <;> norm_num [ebayFees, etsyFees]
  have hok : suggest_price wholesale_jpy weight_g target_margin platform =
      Except.ok
        { suggested_price_usd := pyRound 2
            (((wholesale_jpy : ℚ) / USD_JPY_RATE + (estimate_shipping weight_g).cost_usd
              + (platformFeesFor platform).payment_fee_fixed
              + (platformFeesFor platform).listing_fee)
            / (1 - ((platformFeesFor platform).fvf_rate
                + (platformFeesFor platform).payment_fee_rate) - target_margin)),
          target_margin := target_margin,
          platform := platform,
          breakdown := calculate_profit wholesale_jpy
            (pyRound 2
              (((wholesale_jpy : ℚ) / USD_JPY_RATE + (estimate_shipping weight_g).cost_usd
                + (platformFeesFor platform).payment_fee_fixed
                + (platformFeesFor platform).listing_fee)
              / (1 - ((platformFeesFor platform).fvf_rate
                  + (platformFeesFor platform).payment_fee_rate) - target_margin)))
            weight_g none platform } := by
    simp only [suggest_price]
    rw [if_neg (not_le.2 hD)]
  refine ⟨_, hok, rfl, ?_⟩
  set S : ℚ := pyRound 2
      (((wholesale_jpy : ℚ) / USD_JPY_RATE + (estimate_shipping weight_g).cost_usd
        + (platformFeesFor platform).payment_fee_fixed
        + (platformFeesFor platform).listing_fee)
      / (1 - ((platformFeesFor platform).fvf_rate
          + (platformFeesFor platform).payment_fee_rate) - target_margin)) with hSdef
  have hwu00 : 0 ≤ (wholesale_jpy : ℚ) / USD_JPY_RATE :=
    div_nonneg (by exact_mod_cast hw) (by norm_num [USD_JPY_RATE])
  have hS0pos : 0 <
      ((wholesale_jpy : ℚ) / USD_JPY_RATE + (estimate_shipping weight_g).cost_usd
        + (platformFeesFor platform).payment_fee_fixed
        + (platformFeesFor platform).listing_fee)
      / (1 - ((platformFeesFor platform).fvf_rate
          + (platformFeesFor platform).payment_fee_rate) - target_margin) :=
    div_pos (by linarith [shipping_cost_lb weight_g]) hD
  have hS0eq :
      (((wholesale_jpy : ℚ) / USD_JPY_RATE + (estimate_shipping weight_g).cost_usd
        + (platformFeesFor platform).payment_fee_fixed
        + (platformFeesFor platform).listing_fee)
      / (1 - ((platformFeesFor platform).fvf_rate
          + (platformFeesFor platform).payment_fee_rate) - target_margin))
      * (1 - ((platformFeesFor platform).fvf_rate
          + (platformFeesFor platform).payment_fee_rate) - target_margin)
      = (wholesale_jpy : ℚ) / USD_JPY_RATE + (estimate_shipping weight_g).cost_usd
        + ((platformFeesFor platform).payment_fee_fixed
          + (platformFeesFor platform).listing_fee) := by
    rw [div_mul_cancel₀ _ (ne_of_gt hD)]
    ring
  have hpf_bound : |(calculate_profit wholesale_jpy S weight_g none
        platform).platform_fees_usd
      - ((calculate_profit wholesale_jpy S weight_g none platform).ebay_fvf_usd
        + pyRound 2 (S * (platformFeesFor platform).payment_fee_rate)
        + ((platformFeesFor platform).payment_fee_fixed
          + (platformFeesFor platform).listing_fee))| ≤ 1/200 := by
    have h := pyRound2_bound
      (pyRound 2 (S * (platformFeesFor platform).fvf_rate)
        + (platformFeesFor platform).payment_fee_fixed
        + pyRound 2 (S * (platformFeesFor platform).payment_fee_rate)
        + (platformFeesFor platform).listing_fee)
    have e : pyRound 2 (S * (platformFeesFor platform).fvf_rate)
        + (platformFeesFor platform).payment_fee_fixed
        + pyRound 2 (S * (platformFeesFor platform).payment_fee_rate)
        + (platformFeesFor platform).listing_fee
        = pyRound 2 (S * (platformFeesFor platform).fvf_rate)
          + pyRound 2 (S * (platformFeesFor platform).payment_fee_rate)
          + ((platformFeesFor platform).payment_fee_fixed
            + (platformFeesFor platform).listing_fee) := by ring
    nth_rewrite 2 [e] at h
    exact h
  obtain ⟨hSlb, hq⟩ := suggest_core_bound
    (((wholesale_jpy : ℚ) / USD_JPY_RATE + (estimate_shipping weight_g).cost_usd
      + (platformFeesFor platform).payment_fee_fixed
      + (platformFeesFor platform).listing_fee)
    / (1 - ((platformFeesFor platform).fvf_rate
        + (platformFeesFor platform).payment_fee_rate) - target_margin))
    S
    ((wholesale_jpy : ℚ) / USD_JPY_RATE)
    ((calculate_profit wholesale_jpy S weight_g none platform).wholesale_usd)
    ((estimate_shipping weight_g).cost_usd)
    ((platformFeesFor platform).fvf_rate)
    ((platformFeesFor platform).payment_fee_rate)
    ((platformFeesFor platform).payment_fee_fixed
      + (platformFeesFor platform).listing_fee)
    target_margin
    ((calculate_profit wholesale_jpy S weight_g none platform).ebay_fvf_usd)
    (pyRound 2 (S * (platformFeesFor platform).payment_fee_rate))
    ((calculate_profit wholesale_jpy S weight_g none platform).platform_fees_usd)
    ((calculate_profit wholesale_jpy S weight_g none platform).total_cost_usd)
    ((calculate_profit wholesale_jpy S weight_g none platform).profit_usd)
    hfr0 hpr0 hfp1 hm hD (shipping_cost_lb weight_g) hFlb hwu00 hS0pos hS0eq
    (hSdef ▸ pyRound2_bound _)
    (pyRound2_bound _)
    (pyRound2_bound _)
    (pyRound2_bound _)
    hpf_bound
    (pyRound2_bound _)
    (pyRound2_bound _)
  have hSpos : (0:ℚ) < S := lt_of_lt_of_le (by norm_num) hSlb
  have hmg_eq : (calculate_profit wholesale_jpy S weight_g none platform).profit_margin
      = pyRound 4 ((calculate_profit wholesale_jpy S weight_g none platform).profit_usd
        / S) := by
    show (if S > 0 then _ else _) = _
    rw [if_pos hSpos]
    exact rfl
  have hmgb := pyRound4_bound
    ((calculate_profit wholesale_jpy S weight_g none platform).profit_usd / S)
  have h001 : (0.01 : ℚ) = 1/100 := by norm_num
  rw [hmg_eq, h001]
  have := (abs_le.1 hmgb).1
  linarith [hq]

/- =====================================================================
   Closed-form evaluations. The `Rat` primitives are `@[irreducible]` by
   default; re-marking them semireducible locally lets `decide` run the
   embedded arithmetic inside the kernel.
   ===================================================================== -/

section ConcreteEvaluations

attribute [local semireducible] Rat.add Rat.mul Rat.sub Rat.inv Rat.ofScientific

/-- C7 counterexample: at sale price 0 (margin undefined) the code returns
the ordinary breakdown — its fixed key list has no "error" entry — with
profit_margin 0.0, refuting "returns a structured result carrying an
`error` field". -/
theorem calculate_profit_zero_sale_counterexample :
    "error" ∉ calculateProfitDictKeys
    ∧ (calculate_profit 1500 0 none none "ebay").profit_margin = 0
    ∧ (calculate_profit 1500 0 none none "ebay").profitable = false :=
  ⟨by decide, by decide, by decide⟩

/-- Witness for C7 (amended) at a negative sale price on the Etsy model. -/
theorem calculate_profit_nonpositive_sale_witness :
    (calculate_profit 300 (-2) (some 50) none "etsy").profit_margin = 0
    ∧ (calculate_profit 300 (-2) (some 50) none "etsy").profitable = false
    ∧ "error" ∉ calculateProfitDictKeys :=
  calculate_profit_nonpositive_sale 300 (-2) (some 50) none "etsy" (by decide)

/-- Witness for C4: infeasible margins on the default eBay model. -/
theorem suggest_price_infeasible_margin_witness :
    suggest_price 300 (some 50) 0.95 "ebay" =
      Except.error "目標利益率が高すぎます（手数料率 + margin >= 100%）"
    ∧ suggest_price 7 none 0.90 "ebay" =
      Except.error "目標利益率が高すぎます（手数料率 + margin >= 100%）" :=
  ⟨(suggest_price_infeasible_margin 300 (some 50) 0.95 "ebay").1 (by decide),
   (suggest_price_infeasible_margin 7 none 0.90 "ebay").2 (by decide)⟩

/-- Witness for C6 at 1500 JPY wholesale, unknown weight, 30% target on
eBay: the result is a success whose verification margin is within the
tolerance of the target. -/
theorem suggest_price_selfcheck_witness :
    ∃ s : SuggestSuccess,
      suggest_price 1500 none 0.30 "ebay" = Except.ok s
      ∧ s.breakdown = calculate_profit 1500 s.suggested_price_usd none none "ebay"
      ∧ (0.30 : ℚ) - 0.01 ≤ s.breakdown.profit_margin :=
  suggest_price_selfcheck 1500 none 0.30 "ebay" (by decide) (by decide) (by decide)

end ConcreteEvaluations

end EcAutomation
